import Mathlib

/-!
Shallow embedding of the iris-abf plugin (`src/iris/io/plugins/abf.py`):
a reader for ABF/ABL satellite grid files.  Raw files are sequences of
unsigned 8-bit values, modelled as a size together with a byte function;
the Python numpy pipeline (reshape / transpose / flip / mask) becomes a
composition of index transformations, and every fallible step returns
`Except AbfError`.
-/

namespace Abf

/-- `X_SIZE = 4320` (abf.py line 33). -/
def X_SIZE : Nat := 4320

/-- `Y_SIZE = 2160` (abf.py line 34). -/
def Y_SIZE : Nat := 2160

/-- The `month_numbers` lookup table (abf.py lines 37-50). -/
def month_numbers : List (String × Nat) :=
  [("jan", 1), ("feb", 2), ("mar", 3), ("apr", 4), ("may", 5), ("jun", 6),
   ("jul", 7), ("aug", 8), ("sep", 9), ("oct", 10), ("nov", 11), ("dec", 12)]

/-- Dictionary lookup `month_numbers[tok]`; `none` models the `KeyError`. -/
def monthNumber (tok : String) : Option Nat :=
  month_numbers.lookup tok

/-- Split a character list at every occurrence of `sep` (the semantics of
`str.split(sep)`, used here only to take the last path component). -/
def splitChar (sep : Char) : List Char → List (List Char)
  | [] => [[]]
  | a :: rest =>
    match splitChar sep rest with
    | [] => [[a]]
    | h :: t => if a = sep then [] :: h :: t else (a :: h) :: t

/-- `os.path.basename`: the last `/`-separated component of a path. -/
def basename (p : String) : String :=
  ⟨(splitChar '/' p.data).getLastD []⟩

/-- Python slice `s[a:b]` (with `0 ≤ a ≤ b`). -/
def pySlice (s : String) (a b : Nat) : String :=
  ⟨(s.data.drop a).take (b - a)⟩

/-- The numeric value of an ASCII digit. -/
def digitVal (c : Char) : Option Nat :=
  if 48 ≤ c.toNat ∧ c.toNat ≤ 57 then some (c.toNat - 48) else none

/-- The non-negative-integer reading of a string of ASCII digits, `none`
when the string is empty or holds a non-digit (Python `int()` raising
`ValueError`; exotic accepted forms such as signs or surrounding
whitespace never occur at the fixed filename offsets). -/
def digitsToNat (s : String) : Option Nat :=
  if s.data = [] then none
  else
    s.data.foldl
      (fun acc c =>
        match acc, digitVal c with
        | some n, some d => some (n * 10 + d)
        | _, _ => none)
      (some 0)

/-- `str.lower()`. -/
def pyLower (s : String) : String :=
  ⟨s.data.map Char.toLower⟩

/-- Errors raised by the plugin.  `valueError` covers `ValueError` (bad
filename length, `int()` parse failure, reshape of a wrong-sized file,
`datetime.date` range checks), `keyError` the `month_numbers` lookup
failure, `attributeError` the `__getattr__` fallback, and
`translationError` the `iris.exceptions.TranslationError` raised for an
unknown format or period. -/
inductive AbfError where
  | valueError (msg : String)
  | keyError
  | attributeError (msg : String)
  | translationError (msg : String)
deriving DecidableEq

/-- A raw ABF/ABL file: its byte count and its bytes (row-major,
index `k` holds the `k`-th unsigned 8-bit value, so values are < 256). -/
structure RawFile where
  size : Nat
  byte : Nat → Nat

/-- `np.fromfile(...).reshape(X_SIZE, Y_SIZE)` (abf.py line 102): entry
`(i, j)` of the 4320 x 2160 array is raw byte `i * 2160 + j`. -/
def reshaped (raw : Nat → Nat) (i j : Nat) : Nat :=
  raw (i * Y_SIZE + j)

/-- `data.transpose()` (abf.py line 104): entry `(r, c)` of the
2160 x 4320 array. -/
def transposed (raw : Nat → Nat) (r c : Nat) : Nat :=
  reshaped raw c r

/-- `data[::-1]` (abf.py line 106): reverse the row axis. -/
def flipped (raw : Nat → Nat) (r c : Nat) : Nat :=
  transposed raw (Y_SIZE - 1 - r) c

/-- `ma.masked_greater(data, 100)` (abf.py line 108): a cell is masked
iff its value exceeds 100. -/
def cellMasked (raw : Nat → Nat) (r c : Nat) : Bool :=
  decide (100 < flipped raw r c)

/-- `data.fill_value = 255` (abf.py line 111). -/
def FILL_VALUE : Nat := 255

/-- The decoded masked grid: underlying values, mask, and fill value. -/
structure GridData where
  value : Nat → Nat → Nat
  masked : Nat → Nat → Bool
  fillValue : Nat

/-- What a masked cell reports when filled (numpy `filled()`). -/
def GridData.filled (g : GridData) (r c : Nat) : Nat :=
  if g.masked r c then g.fillValue else g.value r c

/-- The attributes `ABFField._read` stores on the field. -/
structure ParsedField where
  version : Nat
  year : Nat
  month : Nat
  period : String
  format : String
  data : GridData

/-- `int(s)` on a slice of the filename; Python raises `ValueError` on a
non-numeric string, modelled by `digitsToNat` returning `none`. -/
def pyInt (s : String) : Except AbfError Nat :=
  match digitsToNat s with
  | some n => Except.ok n
  | none => Except.error (AbfError.valueError ("invalid literal for int: " ++ s))

/-- `ABFField._read` (abf.py lines 90-112): slice the basename at fixed
offsets, look the month token up in `month_numbers`, then read the whole
file and reshape it to `(X_SIZE, Y_SIZE)` — which fails unless the file
holds exactly `X_SIZE * Y_SIZE` bytes — transpose, flip, and mask. -/
def ABFField.read (filename : String) (file : RawFile) : Except AbfError ParsedField := do
  let b := basename filename
  let version ← pyInt (pySlice b 9 11)
  let year ← pyInt (pySlice b 12 16)
  let monthTok := pySlice b 16 19
  let period := pySlice b 19 20
  let format := pySlice b 21 24
  let month ←
    match monthNumber monthTok with
    | some m => Except.ok m
    | none => Except.error AbfError.keyError
  if file.size = X_SIZE * Y_SIZE then
    Except.ok
      { version := version, year := year, month := month, period := period,
        format := format,
        data :=
          { value := flipped file.byte, masked := cellMasked file.byte,
            fillValue := FILL_VALUE } }
  else
    Except.error (AbfError.valueError "cannot reshape array")

/-- `ABFField.__init__` (abf.py lines 61-79): only the basename length is
checked; everything else is deferred. -/
structure ABFField where
  _filename : String

/-- The fallible constructor: `ValueError` unless the basename has
exactly 24 characters. -/
def ABFField.init (filename : String) : Except AbfError ABFField :=
  if (basename filename).length = 24 then Except.ok ⟨filename⟩
  else
    Except.error
      (AbfError.valueError ("ABFField expects a filename of 24 characters: " ++ basename filename))

/-- `calendar.isleap` / the proleptic-Gregorian leap rule used by both
`calendar.monthrange` and `datetime.date`. -/
def isLeap (y : Nat) : Bool :=
  y % 4 = 0 && (y % 100 != 0 || y % 400 = 0)

/-- `calendar.monthrange(y, m)[1]`: the number of days in month `m` of
year `y` (for `1 ≤ m ≤ 12`). -/
def daysInMonth (y m : Nat) : Nat :=
  if m = 2 then (if isLeap y then 29 else 28)
  else if m = 4 ∨ m = 6 ∨ m = 9 ∨ m = 11 then 30
  else 31

/-- Days in the months of year `y` strictly before month `m`. -/
def daysBeforeMonth (y m : Nat) : Nat :=
  (List.range (m - 1)).foldl (fun acc k => acc + daysInMonth y (k + 1)) 0

/-- `datetime.date(y, m, d).toordinal()`: the proleptic Gregorian ordinal,
with 0001-01-01 as day 1. -/
def toordinal (y m d : Nat) : Nat :=
  (y - 1) * 365 + (y - 1) / 4 - (y - 1) / 100 + (y - 1) / 400 + daysBeforeMonth y m + d

/-- `datetime.date(y, m, d).toordinal()` with the constructor's range
checks (`datetime` requires `1 ≤ y ≤ 9999`, `1 ≤ m ≤ 12`,
`1 ≤ d ≤ daysInMonth y m`, in that order). -/
def dateOrdinal (y m d : Nat) : Except AbfError Nat :=
  if 1 ≤ y ∧ y ≤ 9999 then
    if 1 ≤ m ∧ m ≤ 12 then
      if 1 ≤ d ∧ d ≤ daysInMonth y m then Except.ok (toordinal y m d)
      else Except.error (AbfError.valueError "day is out of range for month")
    else Except.error (AbfError.valueError "month must be in 1..12")
  else Except.error (AbfError.valueError "year is out of range")

/-- The naming step of `to_cube` (abf.py lines 119-126). -/
def cubeName (format : String) : Except AbfError String :=
  if pyLower format = "abf" then Except.ok "FAPAR"
  else if pyLower format = "abl" then Except.ok "leaf_area_index"
  else Except.error (AbfError.translationError ("Unknown ABF/ABL format: " ++ format))

/-- The period dispatch of `to_cube` (abf.py lines 155-164): the first and
last day-of-month of the half-month interval.  `calendar.monthrange`
raises for a month outside 1..12 (`IllegalMonthError`, a `ValueError`). -/
def periodInterval (year month : Nat) (period : String) : Except AbfError (Nat × Nat) :=
  if period = "a" then Except.ok (1, 15)
  else if period = "b" then
    if 1 ≤ month ∧ month ≤ 12 then Except.ok (16, daysInMonth year month)
    else Except.error (AbfError.valueError "bad month")
  else Except.error (AbfError.translationError ("Unknown period: " ++ period))

/-- The time computation of `to_cube` (abf.py lines 154-173): both
interval endpoints as "days since 0001-01-01", i.e. ordinal minus 1. -/
def timeCoordOf (year month : Nat) (period : String) : Except AbfError (Nat × Nat) := do
  let se ← periodInterval year month period
  let a ← dateOrdinal year month se.1
  let b ← dateOrdinal year month se.2
  Except.ok (a - 1, b - 1)

/-- `step = 1.0 / 12.0` (abf.py line 130), as an exact rational. -/
def step : ℚ := 1 / 12

/-- Longitude point `i`: `np.arange(X_SIZE) * step + (step / 2) - 180`
(abf.py lines 134-139). -/
def lonPointAt (i : Nat) : ℚ :=
  (i : ℚ) * step + step / 2 - 180

/-- Latitude point `j`: `np.arange(Y_SIZE) * step + (step / 2) - 90`
(abf.py lines 141-146). -/
def latPointAt (j : Nat) : ℚ :=
  (j : ℚ) * step + step / 2 - 90

/-- The cube produced by `to_cube`: name, units, the two spatial axes
(points and the data dimension each is attached to), the scalar time
coordinate (point and bounds), the source attribute, and the data. -/
structure AbfCube where
  name : String
  units : String
  lonPoint : Nat → ℚ
  latPoint : Nat → ℚ
  lonAxis : Nat
  latAxis : Nat
  timePoint : Nat
  timeBounds : Nat × Nat
  source : String
  data : GridData

/-- `ABFField.to_cube` (abf.py lines 114-189) on an already-read field:
name from the format tag, units `"%"`, the two spatial axes (longitude on
data dimension 1, latitude on 0), the half-month time coordinate, and the
source attribute.  A failure at any step yields an error and no cube. -/
def toCube (f : ParsedField) : Except AbfError AbfCube := do
  let name ← cubeName f.format
  let tc ← timeCoordOf f.year f.month f.period
  Except.ok
    { name := name, units := "%",
      lonPoint := lonPointAt, latPoint := latPointAt,
      lonAxis := 1, latAxis := 0,
      timePoint := tc.1, timeBounds := tc,
      source := "Boston University", data := f.data }

/-- A field handle with its instance dictionary: `__init__` stores only
the filename; `_read` later populates the six attributes. -/
structure Handle where
  _filename : String
  version? : Option Nat
  year? : Option Nat
  month? : Option Nat
  period? : Option String
  format? : Option String
  data? : Option GridData

/-- A freshly constructed handle (after a successful `__init__`). -/
def Handle.fresh (filename : String) : Handle :=
  ⟨filename, none, none, none, none, none, none⟩

/-- The possible values of an `ABFField` attribute. -/
inductive AttrValue where
  | nat (n : Nat)
  | str (s : String)
  | grid (g : GridData)

/-- Instance-dictionary lookup (`self.__dict__[key]`). -/
def Handle.dict (h : Handle) (key : String) : Option AttrValue :=
  if key = "version" then h.version?.map AttrValue.nat
  else if key = "year" then h.year?.map AttrValue.nat
  else if key = "month" then h.month?.map AttrValue.nat
  else if key = "period" then h.period?.map AttrValue.str
  else if key = "format" then h.format?.map AttrValue.str
  else if key = "data" then h.data?.map AttrValue.grid
  else none

/-- `self._read()` on a handle: run `ABFField.read` on the stored filename
and store every parsed attribute in the instance dictionary. -/
def Handle.readInto (h : Handle) (file : RawFile) : Except AbfError Handle := do
  let f ← ABFField.read h._filename file
  Except.ok
    { h with
      version? := some f.version, year? := some f.year, month? := some f.month,
      period? := some f.period, format? := some f.format, data? := some f.data }

/-- Attribute access on a handle (normal lookup plus `__getattr__`,
abf.py lines 81-88): a present attribute is returned as is; a missing
`"data"` triggers `_read` first; any other missing attribute raises
`AttributeError`.  Returns the value and the possibly-updated handle. -/
def Handle.getattr (h : Handle) (file : RawFile) (key : String) :
    Except AbfError (AttrValue × Handle) :=
  match h.dict key with
  | some v => Except.ok (v, h)
  | none =>
    if key = "data" then do
      let h2 ← h.readInto file
      match h2.dict key with
      | some v => Except.ok (v, h2)
      | none => Except.error (AbfError.attributeError key)
    else Except.error (AbfError.attributeError key)

/-- The environment the batch loader runs in: `glob.glob` expansion and
the bytes of each file on disk. -/
structure Env where
  glob : String → List String
  file : String → RawFile

/-- Decoding one matched file inside `load_cubes` (abf.py lines 215-216):
construct the handle, read the field (triggered by `to_cube` touching
`self.data`), and build the cube. -/
def decodeFile (env : Env) (filename : String) : Except AbfError (AbfCube × ParsedField) := do
  let h ← ABFField.init filename
  let f ← ABFField.read h._filename (env.file filename)
  let c ← toCube f
  Except.ok (c, f)

/-- The per-file loop of `load_cubes` (abf.py lines 212-224) over an
already-expanded filename list: decode each file in order; with no
callback, emit every cube; with a callback, a `none` result suppresses
the file's cube and a `some` result is emitted in its place.  The first
failure aborts the remaining iteration. -/
def processFiles (env : Env)
    (callback : Option (AbfCube → ParsedField → String → Option AbfCube)) :
    List String → Except AbfError (List AbfCube)
  | [] => Except.ok []
  | fn :: rest => do
    let cf ← decodeFile env fn
    let tail ← processFiles env callback rest
    match callback with
    | none => Except.ok (cf.1 :: tail)
    | some cb =>
      match cb cf.1 cf.2 fn with
      | none => Except.ok tail
      | some c2 => Except.ok (c2 :: tail)

/-- A single pattern string or a list of patterns. -/
def normSpecs (filespecs : String ⊕ List String) : List String :=
  match filespecs with
  | Sum.inl s => [s]
  | Sum.inr l => l

/-- The filenames `load_cubes` visits: each pattern's glob expansion, in
pattern order. -/
def globbed (env : Env) (filespecs : String ⊕ List String) : List String :=
  (normSpecs filespecs).flatMap env.glob

/-- `load_cubes` (abf.py lines 192-224): normalize a lone pattern string
to a one-element list, expand every pattern, and process each matched
file. -/
def load_cubes (env : Env) (filespecs : String ⊕ List String)
    (callback : Option (AbfCube → ParsedField → String → Option AbfCube)) :
    Except AbfError (List AbfCube) :=
  processFiles env callback (globbed env filespecs)

/-- The raw byte sequence `0, 1, 2, ...` reduced mod 256 (the bytes an
on-disk `np.arange(4320 * 2160, dtype=np.uint8)` holds). -/
def exampleRaw : Nat → Nat := fun k => k % 256

/-- A correctly sized file holding `exampleRaw`. -/
def exampleFile : RawFile := ⟨X_SIZE * Y_SIZE, exampleRaw⟩

/-- The field `ABFField.read` produces from `exampleFile` under the
example filename `AVHRRBUVI12.9876marb.abf`. -/
def exampleField : ParsedField :=
  { version := 12, year := 9876, month := 3, period := "b", format := "abf",
    data := { value := flipped exampleRaw, masked := cellMasked exampleRaw,
              fillValue := 255 } }

/-- The cube `to_cube` builds from `exampleField` (format `"abf"`,
period `'b'`, March 9876). -/
def exampleCube : AbfCube :=
  { name := "FAPAR", units := "%",
    lonPoint := lonPointAt, latPoint := latPointAt,
    lonAxis := 1, latAxis := 0,
    timePoint := toordinal 9876 3 16 - 1,
    timeBounds := (toordinal 9876 3 16 - 1, toordinal 9876 3 31 - 1),
    source := "Boston University", data := exampleField.data }

/-- C1: for a file of exactly `4320 * 2160` raw bytes, a successful read
yields a grid whose cell `(r, c)` (with `r < 2160`, `c < 4320`, the
logical 2160 x 4320 shape) holds raw byte `c * 2160 + (2159 - r)` — the
reshape-transpose-flip composition — is masked iff that byte exceeds 100,
and reports fill value 255 when masked; on the byte sequence
`0, 1, 2, ... (mod 256)`, cell `(0, 4317)` is 31, cell `(2159, 0)` is 0,
and cell `(0, 0)` is masked. -/
theorem read_grid_postcondition (filename : String) (file : RawFile) (f : ParsedField)
    (r c : Nat) (hsize : file.size = X_SIZE * Y_SIZE) (hr : r < 2160) (hc : c < 4320)
    (hread : ABFField.read filename file = Except.ok f) :
    f.data.value r c = file.byte (c * 2160 + (2159 - r)) ∧
    f.data.masked r c = decide (100 < file.byte (c * 2160 + (2159 - r))) ∧
    (f.data.masked r c = true → f.data.filled r c = 255) ∧
    flipped exampleRaw 0 4317 = 31 ∧ cellMasked exampleRaw 0 4317 = false ∧
    flipped exampleRaw 2159 0 = 0 ∧ cellMasked exampleRaw 2159 0 = false ∧
    cellMasked exampleRaw 0 0 = true := by
  have hdata : f.data =
      { value := flipped file.byte, masked := cellMasked file.byte,
        fillValue := FILL_VALUE } := by
    unfold ABFField.read at hread
    simp only [bind, Except.bind] at hread
    repeat' split at hread
    all_goals first
      | exact Except.noConfusion hread
      | (injection hread with h; subst h; rfl)
  have hidx : Y_SIZE - 1 - r = 2159 - r := by simp [Y_SIZE]
  refine ⟨?_, ?_, ?_, by decide, by decide, by decide, by decide, by decide⟩
  · rw [hdata]
    show flipped file.byte r c = _
    unfold flipped transposed reshaped
    rw [hidx]
    rfl
  · rw [hdata]
    show cellMasked file.byte r c = _
    unfold cellMasked flipped transposed reshaped
    rw [hidx]
    rfl
  · intro hm
    rw [hdata] at hm ⊢
    have hm2 : cellMasked file.byte r c = true := hm
    show (if cellMasked file.byte r c then FILL_VALUE else flipped file.byte r c) = 255
    rw [hm2]
    rfl

/-- Witness for C1: the example file read under the example filename. -/
theorem read_grid_postcondition_witness :
    ABFField.read "AVHRRBUVI12.9876marb.abf" exampleFile = Except.ok exampleField ∧
    exampleField.data.value 0 4317 = exampleFile.byte (4317 * 2160 + (2159 - 0)) := by
  constructor
  · rfl
  · exact (read_grid_postcondition "AVHRRBUVI12.9876marb.abf" exampleFile exampleField
      0 4317 rfl (by decide) (by decide) (by rfl)).1

/-- A successful `dateOrdinal` returns the ordinal of its arguments. -/
theorem dateOrdinal_ok {y m d n : Nat} (h : dateOrdinal y m d = Except.ok n) :
    n = toordinal y m d := by
  unfold dateOrdinal at h
  repeat' split at h
  all_goals first
    | exact Except.noConfusion h
    | (injection h with h2; exact h2.symm)

/-- A successful `timeCoordOf` comes from a successful period dispatch,
with both interval endpoints converted through `toordinal` minus 1. -/
theorem timeCoordOf_ok {y m : Nat} {p : String} {tc : Nat × Nat}
    (h : timeCoordOf y m p = Except.ok tc) :
    ∃ se, periodInterval y m p = Except.ok se ∧
      tc = (toordinal y m se.1 - 1, toordinal y m se.2 - 1) := by
  unfold timeCoordOf at h
  simp only [bind, Except.bind] at h
  cases hpi : periodInterval y m p with
  | error e => rw [hpi] at h; exact Except.noConfusion h
  | ok se =>
    rw [hpi] at h
    dsimp only at h
    cases h1 : dateOrdinal y m se.1 with
    | error e => rw [h1] at h; exact Except.noConfusion h
    | ok a =>
      rw [h1] at h
      dsimp only at h
      cases h2 : dateOrdinal y m se.2 with
      | error e => rw [h2] at h; exact Except.noConfusion h
      | ok b =>
        rw [h2] at h
        dsimp only at h
        injection h with h3
        exact ⟨se, rfl, by rw [← h3, dateOrdinal_ok h1, dateOrdinal_ok h2]⟩

/-- A successful `toCube` call fully determines the cube from the field:
the name from `cubeName`, the time coordinate from `timeCoordOf`, and
fixed spatial axes, units, source, and data. -/
theorem toCube_ok {f : ParsedField} {c : AbfCube} (h : toCube f = Except.ok c) :
    ∃ nm tc, cubeName f.format = Except.ok nm ∧
      timeCoordOf f.year f.month f.period = Except.ok tc ∧
      c = { name := nm, units := "%",
            lonPoint := lonPointAt, latPoint := latPointAt,
            lonAxis := 1, latAxis := 0,
            timePoint := tc.1, timeBounds := tc,
            source := "Boston University", data := f.data } := by
  unfold toCube at h
  simp only [bind, Except.bind] at h
  cases hnm : cubeName f.format with
  | error e => rw [hnm] at h; exact Except.noConfusion h
  | ok nm =>
    rw [hnm] at h
    dsimp only at h
    cases htc : timeCoordOf f.year f.month f.period with
    | error e => rw [htc] at h; exact Except.noConfusion h
    | ok tc =>
      rw [htc] at h
      dsimp only at h
      injection h with h2
      exact ⟨nm, tc, rfl, rfl, h2.symm⟩

/-- C2: for a field built with period `'a'` the time interval is day 1
through day 15 of (year, month), for period `'b'` day 16 through the last
calendar day; both endpoints become proleptic Gregorian ordinals minus 1,
the cube's time point is the start and its bounds are [start, end]; at
year 2020 month 4 this gives point 737515 with bounds [737515, 737529]
for `'a'` and point 737530 with bounds [737530, 737544] for `'b'`. -/
theorem to_cube_time_postcondition (f : ParsedField) (c : AbfCube)
    (hok : toCube f = Except.ok c) :
    (f.period = "a" →
      c.timePoint = toordinal f.year f.month 1 - 1 ∧
      c.timeBounds = (toordinal f.year f.month 1 - 1, toordinal f.year f.month 15 - 1)) ∧
    (f.period = "b" →
      c.timePoint = toordinal f.year f.month 16 - 1 ∧
      c.timeBounds = (toordinal f.year f.month 16 - 1,
        toordinal f.year f.month (daysInMonth f.year f.month) - 1)) ∧
    timeCoordOf 2020 4 "a" = Except.ok (737515, 737529) ∧
    timeCoordOf 2020 4 "b" = Except.ok (737530, 737544) := by
  obtain ⟨nm, tc, hnm, htc, hc⟩ := toCube_ok hok
  refine ⟨?_, ?_, by rfl, by rfl⟩
  · intro hpa
    obtain ⟨se, hpi, hse⟩ := timeCoordOf_ok htc
    rw [hpa] at hpi
    unfold periodInterval at hpi
    simp only [if_pos rfl] at hpi
    injection hpi with h2
    subst h2
    subst hc
    subst hse
    exact ⟨rfl, rfl⟩
  · intro hpb
    obtain ⟨se, hpi, hse⟩ := timeCoordOf_ok htc
    rw [hpb] at hpi
    unfold periodInterval at hpi
    simp only [reduceIte, String.reduceEq] at hpi
    split at hpi
    · injection hpi with h2
      subst h2
      subst hc
      subst hse
      exact ⟨rfl, rfl⟩
    · exact Except.noConfusion hpi

/-- Witness for C2: the example field (period `'b'`, March 9876). -/
theorem to_cube_time_postcondition_witness :
    toCube exampleField = Except.ok exampleCube ∧
    exampleCube.timePoint = toordinal 9876 3 16 - 1 ∧
    exampleCube.timeBounds = (toordinal 9876 3 16 - 1, toordinal 9876 3 31 - 1) := by
  have h := (to_cube_time_postcondition exampleField exampleCube (by rfl)).2.1 rfl
  exact ⟨by rfl, h.1, h.2⟩

/-- C3: the cube's longitude points are `i * (1/12) + 1/24 - 180` and its
latitude points `j * (1/12) + 1/24 - 90`; both sequences are strictly
increasing with uniform spacing `1/12`, span `-4319/24 .. 4319/24`
(longitude over 4320 points) and `-2159/24 .. 2159/24` (latitude over
2160 points), and longitude is attached to data dimension 1 (columns),
latitude to dimension 0 (rows). -/
theorem spatial_axis_generation (f : ParsedField) (c : AbfCube) (i j : Nat)
    (hok : toCube f = Except.ok c) (hi : i < 4320) (hj : j < 2160) :
    c.lonPoint i = (i : ℚ) * step + step / 2 - 180 ∧
    c.latPoint j = (j : ℚ) * step + step / 2 - 90 ∧
    c.lonPoint i < c.lonPoint (i + 1) ∧
    c.lonPoint (i + 1) - c.lonPoint i = step ∧
    c.latPoint j < c.latPoint (j + 1) ∧
    c.latPoint (j + 1) - c.latPoint j = step ∧
    c.lonPoint 0 = -4319 / 24 ∧ c.lonPoint 4319 = 4319 / 24 ∧
    c.latPoint 0 = -2159 / 24 ∧ c.latPoint 2159 = 2159 / 24 ∧
    c.lonAxis = 1 ∧ c.latAxis = 0 := by
  obtain ⟨nm, tc, hnm, htc, hc⟩ := toCube_ok hok
  subst hc
  refine ⟨rfl, rfl, ?_, ?_, ?_, ?_, ?_, ?_, ?_, ?_, rfl, rfl⟩
  · show lonPointAt i < lonPointAt (i + 1)
    unfold lonPointAt step
    push_cast
    linarith
  · show lonPointAt (i + 1) - lonPointAt i = step
    unfold lonPointAt step
    push_cast
    ring
  · show latPointAt j < latPointAt (j + 1)
    unfold latPointAt step
    push_cast
    linarith
  · show latPointAt (j + 1) - latPointAt j = step
    unfold latPointAt step
    push_cast
    ring
  · show lonPointAt 0 = -4319 / 24
    unfold lonPointAt step
    norm_num
  · show lonPointAt 4319 = 4319 / 24
    unfold lonPointAt step
    norm_num
  · show latPointAt 0 = -2159 / 24
    unfold latPointAt step
    norm_num
  · show latPointAt 2159 = 2159 / 24
    unfold latPointAt step
    norm_num

/-- Witness for C3: the example cube at corner indices. -/
theorem spatial_axis_generation_witness :
    exampleCube.lonPoint 0 = -4319 / 24 ∧ exampleCube.latPoint 2159 = 2159 / 24 := by
  have h := spatial_axis_generation exampleField exampleCube 0 2159 (by rfl)
    (by decide) (by decide)
  exact ⟨h.2.2.2.2.2.2.1, h.2.2.2.2.2.2.2.2.2.1⟩

/-- C10: reading the grid fails whenever the file's byte count differs
from `4320 * 2160` — an oversized file fails exactly like a truncated
one; no prefix of an oversized file is ever decoded. -/
theorem read_size_exactness (filename : String) (file : RawFile)
    (hsize : file.size ≠ X_SIZE * Y_SIZE) :
    (ABFField.read filename file).isOk = false := by
  unfold ABFField.read
  simp only [bind, Except.bind]
  repeat' split
  all_goals first
    | rfl
    | (exact absurd (by assumption) hsize)

/-- Witness for C10: a file one byte longer than expected is rejected. -/
theorem read_size_exactness_witness :
    (ABFField.read "AVHRRBUVI12.9876marb.abf" ⟨X_SIZE * Y_SIZE + 1, fun k => k⟩).isOk = false :=
  read_size_exactness "AVHRRBUVI12.9876marb.abf" ⟨X_SIZE * Y_SIZE + 1, fun k => k⟩ (by decide)

/-- A successful `cubeName` means the lowercased tag was one of the two
known ones, and fixes the name. -/
theorem cubeName_ok {fmt nm : String} (h : cubeName fmt = Except.ok nm) :
    (pyLower fmt = "abf" ∧ nm = "FAPAR") ∨
    (pyLower fmt = "abl" ∧ nm = "leaf_area_index") := by
  unfold cubeName at h
  split at h
  · exact Or.inl ⟨by assumption, by injection h with h2; exact h2.symm⟩
  · split at h
    · exact Or.inr ⟨by assumption, by injection h with h2; exact h2.symm⟩
    · exact Except.noConfusion h

/-- A successful period dispatch means the period was `'a'` or `'b'`. -/
theorem periodInterval_ok {y m : Nat} {p : String} {se : Nat × Nat}
    (h : periodInterval y m p = Except.ok se) : p = "a" ∨ p = "b" := by
  unfold periodInterval at h
  split at h
  · exact Or.inl (by assumption)
  · split at h
    · exact Or.inr (by assumption)
    · exact Except.noConfusion h

/-- C6: `to_cube` names the cube "FAPAR" exactly when the lowercased
format tag is `"abf"`, "leaf_area_index" exactly when it is `"abl"`,
fails with the translation error for any other tag, and sets the units
to `"%"` in both named cases. -/
theorem to_cube_naming_units (f : ParsedField) :
    (∀ c, toCube f = Except.ok c →
      (c.name = "FAPAR" ↔ pyLower f.format = "abf") ∧
      (c.name = "leaf_area_index" ↔ pyLower f.format = "abl") ∧
      c.units = "%") ∧
    (pyLower f.format ≠ "abf" → pyLower f.format ≠ "abl" →
      toCube f = Except.error (AbfError.translationError
        ("Unknown ABF/ABL format: " ++ f.format))) := by
  constructor
  · intro c hok
    obtain ⟨nm, tc, hnm, htc, hc⟩ := toCube_ok hok
    subst hc
    rcases cubeName_ok hnm with ⟨hf, hn⟩ | ⟨hf, hn⟩ <;> subst hn
    · refine ⟨by simp [hf], ?_, rfl⟩
      show ("FAPAR" = "leaf_area_index" ↔ pyLower f.format = "abl")
      rw [hf]
      decide
    · refine ⟨?_, by simp [hf], rfl⟩
      show ("leaf_area_index" = "FAPAR" ↔ pyLower f.format = "abf")
      rw [hf]
      decide
  · intro h1 h2
    simp only [toCube, cubeName, bind, Except.bind, if_neg h1, if_neg h2]

/-- Witness for C6: the example field (tag `"abf"`). -/
theorem to_cube_naming_units_witness :
    (exampleCube.name = "FAPAR" ↔ pyLower exampleField.format = "abf") ∧
    exampleCube.units = "%" := by
  have h := (to_cube_naming_units exampleField).1 exampleCube (by rfl)
  exact ⟨h.1, h.2.2⟩

/-- A field whose format tag is neither `"abf"` nor `"abl"`. -/
def badFormatField : ParsedField :=
  { exampleField with format := "xyz" }

/-- A field whose period is neither `'a'` nor `'b'`. -/
def badPeriodField : ParsedField :=
  { exampleField with period := "c" }

/-- C8: an unknown format tag makes `to_cube` fail with the
unknown-format translation error, a known tag with an unknown period
fails with the unknown-period translation error, and in both cases no
cube whatsoever is returned; conversely a returned cube certifies that
both the tag and the period were known. -/
theorem to_cube_atomicity (f : ParsedField) :
    (pyLower f.format ≠ "abf" → pyLower f.format ≠ "abl" →
      toCube f = Except.error (AbfError.translationError
        ("Unknown ABF/ABL format: " ++ f.format)) ∧
      ∀ c, toCube f ≠ Except.ok c) ∧
    ((pyLower f.format = "abf" ∨ pyLower f.format = "abl") →
      f.period ≠ "a" → f.period ≠ "b" →
      toCube f = Except.error (AbfError.translationError
        ("Unknown period: " ++ f.period)) ∧
      ∀ c, toCube f ≠ Except.ok c) ∧
    (∀ c, toCube f = Except.ok c →
      (pyLower f.format = "abf" ∨ pyLower f.format = "abl") ∧
      (f.period = "a" ∨ f.period = "b")) := by
  refine ⟨?_, ?_, ?_⟩
  · intro h1 h2
    have herr : toCube f = Except.error (AbfError.translationError
        ("Unknown ABF/ABL format: " ++ f.format)) := by
      simp only [toCube, cubeName, bind, Except.bind, if_neg h1, if_neg h2]
    exact ⟨herr, fun c hc => Except.noConfusion (herr ▸ hc)⟩
  · intro hfmt hp1 hp2
    have hnm : ∃ nm, cubeName f.format = Except.ok nm := by
      rcases hfmt with hf | hf
      · exact ⟨"FAPAR", by simp only [cubeName, if_pos hf]⟩
      · refine ⟨"leaf_area_index", ?_⟩
        have : pyLower f.format ≠ "abf" := by rw [hf]; decide
        simp only [cubeName, if_neg this, if_pos hf]
    obtain ⟨nm, hnm⟩ := hnm
    have htc : timeCoordOf f.year f.month f.period = Except.error
        (AbfError.translationError ("Unknown period: " ++ f.period)) := by
      simp only [timeCoordOf, periodInterval, bind, Except.bind, if_neg hp1, if_neg hp2]
    have herr : toCube f = Except.error (AbfError.translationError
        ("Unknown period: " ++ f.period)) := by
      simp only [toCube, bind, Except.bind, hnm, htc]
    exact ⟨herr, fun c hc => Except.noConfusion (herr ▸ hc)⟩
  · intro c hok
    obtain ⟨nm, tc, hnm, htc, hc⟩ := toCube_ok hok
    obtain ⟨se, hpi, hse⟩ := timeCoordOf_ok htc
    refine ⟨?_, periodInterval_ok hpi⟩
    rcases cubeName_ok hnm with ⟨hf, _⟩ | ⟨hf, _⟩
    · exact Or.inl hf
    · exact Or.inr hf

/-- Witness for C8: a field with tag `"xyz"` and a field with
period `'c'`. -/
theorem to_cube_atomicity_witness :
    toCube badFormatField = Except.error (AbfError.translationError
      ("Unknown ABF/ABL format: " ++ badFormatField.format)) ∧
    toCube badPeriodField = Except.error (AbfError.translationError
      ("Unknown period: " ++ badPeriodField.period)) := by
  constructor
  · exact ((to_cube_atomicity badFormatField).1 (by decide) (by decide)).1
  · exact ((to_cube_atomicity badPeriodField).2.1 (Or.inl (by decide))
      (by decide) (by decide)).1

/-- C4: constructing an `ABFField` succeeds exactly when the basename has
24 characters — nothing about the embedded month, period, or format
fields is examined and no file is touched (the constructor does not even
receive the file) — and the successful handle just stores the path. -/
theorem init_length_contract (p : String) :
    ((ABFField.init p).isOk = true ↔ (basename p).length = 24) ∧
    (∀ h, ABFField.init p = Except.ok h → h._filename = p) := by
  constructor
  · unfold ABFField.init
    split
    · rename_i hlen
      simp [Except.isOk, Except.toBool, hlen]
    · rename_i hlen
      simp [Except.isOk, Except.toBool, hlen]
  · intro h hok
    unfold ABFField.init at hok
    split at hok
    · injection hok with h2
      rw [← h2]
    · exact Except.noConfusion hok

/-- Witness for C4: a 24-character basename with an invalid month token
is accepted; a shorter basename is rejected. -/
theorem init_length_contract_witness :
    (ABFField.init "AVHRRBUVI12.9876xxxq.qqq").isOk = true ∧
    (ABFField.init "too_short").isOk = false := by
  constructor
  · exact (init_length_contract "AVHRRBUVI12.9876xxxq.qqq").1.mpr (by decide)
  · cases hb : (ABFField.init "too_short").isOk
    · rfl
    · exact absurd ((init_length_contract "too_short").1.mp hb) (by decide)

/-- `List.lookup` only returns stored pairs. -/
theorem lookup_mem {l : List (String × Nat)} {k : String} {v : Nat}
    (h : l.lookup k = some v) : (k, v) ∈ l := by
  induction l with
  | nil => exact Option.noConfusion h
  | cons a t ih =>
    obtain ⟨k1, v1⟩ := a
    rw [List.lookup] at h
    split at h
    · rename_i hbeq
      injection h with h2
      subst h2
      have hk : k = k1 := eq_of_beq hbeq
      rw [hk]
      exact List.mem_cons_self _ _
    · exact List.mem_cons_of_mem _ (ih h)

/-- C7: decoding fails when the month token at offsets [16,19) of the
basename is not a recognized lowercase abbreviation; a successful decode
stores exactly the table's month for that token; the table maps the 12
lowercase abbreviations to 1..12 and nothing else (e.g. `"Jan"` is not
recognized). -/
theorem month_token_validation :
    (∀ name file, monthNumber (pySlice (basename name) 16 19) = none →
      (ABFField.read name file).isOk = false) ∧
    (∀ name file f, ABFField.read name file = Except.ok f →
      monthNumber (pySlice (basename name) 16 19) = some f.month) ∧
    monthNumber "jan" = some 1 ∧ monthNumber "feb" = some 2 ∧
    monthNumber "mar" = some 3 ∧ monthNumber "apr" = some 4 ∧
    monthNumber "may" = some 5 ∧ monthNumber "jun" = some 6 ∧
    monthNumber "jul" = some 7 ∧ monthNumber "aug" = some 8 ∧
    monthNumber "sep" = some 9 ∧ monthNumber "oct" = some 10 ∧
    monthNumber "nov" = some 11 ∧ monthNumber "dec" = some 12 ∧
    monthNumber "Jan" = none ∧
    (∀ tok m, monthNumber tok = some m → (tok, m) ∈ month_numbers) := by
  refine ⟨?_, ?_, by decide, by decide, by decide, by decide, by decide, by decide,
    by decide, by decide, by decide, by decide, by decide, by decide, by decide,
    fun tok m h => lookup_mem h⟩
  · intro name file hm
    unfold ABFField.read
    simp only [bind, Except.bind]
    repeat' split
    all_goals first
      | rfl
      | simp_all
  · intro name file f hok
    unfold ABFField.read at hok
    simp only [bind, Except.bind] at hok
    repeat' split at hok
    all_goals first
      | exact Except.noConfusion hok
      | (injection hok with h2; subst h2; assumption)

/-- Witness for C7: an unrecognized month token `"xxx"` aborts the read
of a correctly sized file. -/
theorem month_token_validation_witness :
    (ABFField.read "AVHRRBUVI12.9876xxxb.abf" exampleFile).isOk = false :=
  month_token_validation.1 "AVHRRBUVI12.9876xxxb.abf" exampleFile (by decide)

/-- C5 counterexample: on a fresh handle for a perfectly valid filename
and file, accessing `version` does not trigger the parse — it raises
`AttributeError` (only a missing `"data"` triggers `_read`). -/
theorem lazy_metadata_fresh_access_fails :
    Handle.getattr (Handle.fresh "AVHRRBUVI12.9876marb.abf") exampleFile "version" =
      Except.error (AbfError.attributeError "version") := rfl

/-- C5 (amended): parsing is deferred to the first access of the grid:
reading `data` on a fresh handle performs the parse, stores every
metadata attribute, and returns the grid; afterwards the metadata
attributes return the parsed values, but on a fresh handle (before any
`data` access) each of them raises `AttributeError` instead. -/
theorem lazy_parse_deferred (name : String) (file : RawFile) (f : ParsedField)
    (hread : ABFField.read name file = Except.ok f) :
    ∃ h2 : Handle,
      Handle.getattr (Handle.fresh name) file "data" =
        Except.ok (AttrValue.grid f.data, h2) ∧
      h2.version? = some f.version ∧ h2.year? = some f.year ∧
      h2.month? = some f.month ∧ h2.period? = some f.period ∧
      h2.format? = some f.format ∧ h2.data? = some f.data ∧
      Handle.getattr h2 file "version" = Except.ok (AttrValue.nat f.version, h2) ∧
      Handle.getattr h2 file "year" = Except.ok (AttrValue.nat f.year, h2) ∧
      Handle.getattr h2 file "month" = Except.ok (AttrValue.nat f.month, h2) ∧
      Handle.getattr h2 file "period" = Except.ok (AttrValue.str f.period, h2) ∧
      Handle.getattr h2 file "format" = Except.ok (AttrValue.str f.format, h2) ∧
      (∀ k, (k = "version" ∨ k = "year" ∨ k = "month" ∨ k = "period" ∨ k = "format") →
        Handle.getattr (Handle.fresh name) file k =
          Except.error (AbfError.attributeError k)) := by
  refine ⟨{ _filename := name, version? := some f.version, year? := some f.year,
            month? := some f.month, period? := some f.period,
            format? := some f.format, data? := some f.data },
          ?_, rfl, rfl, rfl, rfl, rfl, rfl, rfl, rfl, rfl, rfl, rfl, ?_⟩
  · unfold Handle.getattr
    rw [show (Handle.fresh name).dict "data" = none from rfl]
    dsimp only
    rw [if_pos rfl]
    unfold Handle.readInto
    simp only [bind, Except.bind]
    rw [show ABFField.read (Handle.fresh name)._filename file = Except.ok f from hread]
    rfl
  · intro k hk
    rcases hk with h | h | h | h | h <;> subst h <;> rfl

/-- Witness for C5 (amended): the example filename and file. -/
theorem lazy_parse_deferred_witness :
    ∃ h2 : Handle,
      Handle.getattr (Handle.fresh "AVHRRBUVI12.9876marb.abf") exampleFile "data" =
        Except.ok (AttrValue.grid exampleField.data, h2) ∧
      Handle.getattr h2 exampleFile "version" = Except.ok (AttrValue.nat 12, h2) := by
  obtain ⟨h2, hdata, -, -, -, -, -, -, hver, -⟩ :=
    lazy_parse_deferred "AVHRRBUVI12.9876marb.abf" exampleFile exampleField (by rfl)
  exact ⟨h2, hdata, hver⟩

/-- `processFiles` on files that all decode: with no callback every cube
is emitted in order; with a callback the per-file callback results are
filter-mapped. -/
theorem processFiles_ok {env : Env} (g : String → AbfCube × ParsedField)
    (files : List String)
    (hall : ∀ fn ∈ files, decodeFile env fn = Except.ok (g fn)) :
    processFiles env none files = Except.ok (files.map (fun fn => (g fn).1)) ∧
    ∀ cb, processFiles env (some cb) files =
      Except.ok (files.filterMap (fun fn => cb (g fn).1 (g fn).2 fn)) := by
  induction files with
  | nil => exact ⟨rfl, fun cb => rfl⟩
  | cons fn rest ih =>
    have hfn : decodeFile env fn = Except.ok (g fn) := hall fn (List.mem_cons_self _ _)
    have hrest := ih (fun x hx => hall x (List.mem_cons_of_mem _ hx))
    constructor
    · simp only [processFiles, bind, Except.bind, hfn, hrest.1, List.map_cons]
    · intro cb
      simp only [processFiles, bind, Except.bind, hfn, hrest.2 cb, List.filterMap_cons]
      cases hc : cb (g fn).1 (g fn).2 fn <;> simp [hc]

/-- The length of a filter-mapped list counts the `some` results. -/
theorem length_filterMap_countP {α β : Type} (f : α → Option β) (l : List α) :
    (l.filterMap f).length = l.countP (fun a => (f a).isSome) := by
  induction l with
  | nil => rfl
  | cons a t ih =>
    cases h : f a <;> simp [List.filterMap_cons, h, List.countP_cons, ih]

/-- C9: `load_cubes` treats a single pattern string as a one-element
sequence; over matched files that all decode, with no callback it yields
exactly one cube per file in enumeration order (N cubes for N files);
with a callback it emits, per file, the callback's result when non-null
and nothing when null, so the output length is the count of non-null
callback results (N−1 when exactly one file is suppressed). -/
theorem load_cubes_batch (env : Env) (fs : String ⊕ List String)
    (cb : AbfCube → ParsedField → String → Option AbfCube)
    (g : String → AbfCube × ParsedField)
    (hall : ∀ fn ∈ globbed env fs, decodeFile env fn = Except.ok (g fn)) :
    (∀ s cb2, load_cubes env (Sum.inl s) cb2 = load_cubes env (Sum.inr [s]) cb2) ∧
    load_cubes env fs none = Except.ok ((globbed env fs).map (fun fn => (g fn).1)) ∧
    ((globbed env fs).map (fun fn => (g fn).1)).length = (globbed env fs).length ∧
    load_cubes env fs (some cb) =
      Except.ok ((globbed env fs).filterMap (fun fn => cb (g fn).1 (g fn).2 fn)) ∧
    ((globbed env fs).filterMap (fun fn => cb (g fn).1 (g fn).2 fn)).length =
      (globbed env fs).countP (fun fn => (cb (g fn).1 (g fn).2 fn).isSome) := by
  exact ⟨fun s cb2 => rfl, (processFiles_ok g _ hall).1, List.length_map _ _,
    (processFiles_ok g _ hall).2 cb, length_filterMap_countP _ _⟩

/-- First matched filename of the witness environment. -/
def fileA : String := "AVHRRBUVI12.9876marb.abf"

/-- Second matched filename (period `'a'`, in a subdirectory). -/
def fileB : String := "dir/AVHRRBUVI12.9876mara.abf"

/-- The field decoded from `fileB` (same bytes, period `'a'`). -/
def exampleFieldA : ParsedField :=
  { exampleField with period := "a" }

/-- The cube built from `exampleFieldA`. -/
def exampleCubeA : AbfCube :=
  { exampleCube with
    timePoint := toordinal 9876 3 1 - 1,
    timeBounds := (toordinal 9876 3 1 - 1, toordinal 9876 3 15 - 1) }

/-- A two-file environment: the pattern `"pat"` matches `fileA` and
`fileB`, and every file on disk holds the example bytes. -/
def envW : Env :=
  { glob := fun p => if p = "pat" then [fileA, fileB] else [],
    file := fun _ => exampleFile }

/-- The decode results in `envW`. -/
def gW : String → AbfCube × ParsedField := fun fn =>
  if fn = fileB then (exampleCubeA, exampleFieldA) else (exampleCube, exampleField)

/-- A callback that vetoes `fileA` and passes every other cube through. -/
def cbW : AbfCube → ParsedField → String → Option AbfCube := fun c _ fn =>
  if fn = fileA then none else some c

/-- Witness for C9: two matched files yield two cubes in order without a
callback, and one cube when the callback suppresses `fileA`. -/
theorem load_cubes_batch_witness :
    load_cubes envW (Sum.inl "pat") none = Except.ok [exampleCube, exampleCubeA] ∧
    load_cubes envW (Sum.inl "pat") (some cbW) = Except.ok [exampleCubeA] := by
  have hall : ∀ fn ∈ globbed envW (Sum.inl "pat"),
      decodeFile envW fn = Except.ok (gW fn) := by
    intro fn hfn
    rw [show globbed envW (Sum.inl "pat") = [fileA, fileB] from rfl] at hfn
    rcases List.mem_cons.mp hfn with h | h
    · subst h; rfl
    · rcases List.mem_cons.mp h with h2 | h2
      · subst h2; rfl
      · exact absurd h2 (List.not_mem_nil _)
  have h := load_cubes_batch envW (Sum.inl "pat") cbW gW hall
  exact ⟨h.2.1.trans (by rfl), h.2.2.2.1.trans (by rfl)⟩

end Abf
